import Mathlib

/-!
Shallow embedding of the foodnutrition repository's retrieval core:
the age-group resolver and query extractors (`src/data/process_dietary_data.py`,
`src/agents/tools/dietary_requirements_tool.py`), the two vector-store wrappers
(`src/data/vector_store.py`, `src/data/dietary_vector_store.py`), the two lookup
tools, the ingestion flow (`src/scripts/setup_rag.py`) and the TTS endpoint
(`src/web/api.py`).  Python dicts keyed by strings become association lists,
machine integers become `Int`/`Nat`, exceptions become `Except String`, and the
external similarity-search engine (embedding model + ChromaDB query) is a
parameter of each tool.
-/

namespace FoodNutrition

/-- Python `\s` whitespace class (ASCII part), as used by `str.strip` and the
regular expressions in the tools. -/
def isPySpace (c : Char) : Bool :=
  c == ' ' || c == '\t' || c == '\n' || c == '\r' || c == '\x0b' || c == '\x0c'

/-- Character class `[-\s]` used by the age-extraction patterns. -/
def isDashOrSpace (c : Char) : Bool :=
  c == '-' || isPySpace c

/-- Python `\w` word character (ASCII part), used for the `\b` word boundary. -/
def isWordChar (c : Char) : Bool :=
  c.isAlphanum || c == '_'

/-- Is `pre` a prefix of `l` (character lists)? -/
def listIsPrefix : List Char → List Char → Bool
  | [], _ => true
  | _ :: _, [] => false
  | a :: as, b :: bs => a == b && listIsPrefix as bs

/-- Does `l` contain `needle` as a contiguous sublist?  Models Python's
substring test `needle in hay`. -/
def listContains (needle : List Char) : List Char → Bool
  | [] => listIsPrefix needle []
  | c :: cs => listIsPrefix needle (c :: cs) || listContains needle cs

/-- Python `needle in hay` on strings (substring containment). -/
def strContains (hay needle : String) : Bool :=
  listContains needle.data hay.data

/-- Does `hay` start with `pre`?  Used to state the `"Error ..."` shape of the
tool-boundary messages. -/
def strStartsWith (hay pre : String) : Bool :=
  listIsPrefix pre.data hay.data

/-- Python `str.strip()`: drop ASCII whitespace from both ends. -/
def pyStrip (s : String) : String :=
  String.mk (((s.data.dropWhile isPySpace).reverse.dropWhile isPySpace).reverse)

/-- Python `str.capitalize()`: first character uppercased, rest lowercased. -/
def pyCapitalize (s : String) : String :=
  match s.data with
  | [] => ""
  | c :: cs => String.mk (c.toUpper :: cs.map Char.toLower)

/-- Worker for `pyTitle`: the boolean records whether the previous character
was alphabetic. -/
def titleGo : Bool → List Char → List Char
  | _, [] => []
  | prevAlpha, c :: cs =>
    if c.isAlpha then
      (if prevAlpha then c.toLower else c.toUpper) :: titleGo true cs
    else
      c :: titleGo false cs

/-- Python `str.title()` restricted to ASCII: uppercase every letter that
follows a non-letter, lowercase the others. -/
def pyTitle (s : String) : String :=
  String.mk (titleGo false s.data)

/-- Python `str.lower()` restricted to ASCII (character-wise lowercasing). -/
def pyLower (s : String) : String :=
  String.mk (s.data.map Char.toLower)

/-- Python `key.replace('_', ' ')` (single-character replacement). -/
def underscoreToSpace (s : String) : String :=
  String.mk (s.data.map (fun c => if c == '_' then ' ' else c))

/-- Python `s.split(sep)` with an explicit one-character separator. -/
def splitOnChar (sep : Char) : List Char → List (List Char)
  | [] => [[]]
  | c :: cs =>
    match splitOnChar sep cs with
    | h :: t => if c == sep then [] :: h :: t else (c :: h) :: t
    | [] => if c == sep then [[], []] else [[c]]

/-- Python `key.split('_')[-1]`: the part after the last underscore. -/
def lastUnderscorePart (key : String) : String :=
  String.mk ((splitOnChar '_' key.data).getLastD [])

/-- Last-wins association-list lookup: Python dict lookup where a dict built
with duplicate keys keeps the last value written. -/
def pyDictGet {α : Type} (l : List (String × α)) (k : String) : Option α :=
  (l.reverse.find? (fun p => p.1 == k)).map (fun p => p.2)

/-- Longest digit prefix of a character list, with the remainder
(the greedy `(\d+)` group). -/
def takeDigits : List Char → List Char × List Char
  | [] => ([], [])
  | c :: cs =>
    if c.isDigit then
      let (ds, r) := takeDigits cs
      (c :: ds, r)
    else ([], c :: cs)

/-- Numeric value of a digit string, as Python's `int()`. -/
def digitsVal (ds : List Char) : Nat :=
  ds.foldl (fun acc c => acc * 10 + (c.toNat - '0'.toNat)) 0

/-- Match a literal character sequence at the front, returning the rest. -/
def dropLit : List Char → List Char → Option (List Char)
  | [], rest => some rest
  | _ :: _, [] => none
  | l :: ls, c :: cs => if c == l then dropLit ls cs else none

/-- Pattern `(\d+)[-\s]year[-\s]old` anchored at the current position. -/
def matchYearOldAt (cs : List Char) : Option Nat :=
  match takeDigits cs with
  | ([], _) => none
  | (ds, r) =>
    match r with
    | [] => none
    | c :: r1 =>
      if isDashOrSpace c then
        match dropLit "year".data r1 with
        | some (c2 :: r2) =>
          if isDashOrSpace c2 then
            match dropLit "old".data r2 with
            | some _ => some (digitsVal ds)
            | none => none
          else none
        | _ => none
      else none

/-- Pattern `(\d+)[-\s]years[-\s]old` anchored at the current position. -/
def matchYearsOldAt (cs : List Char) : Option Nat :=
  match takeDigits cs with
  | ([], _) => none
  | (ds, r) =>
    match r with
    | [] => none
    | c :: r1 =>
      if isDashOrSpace c then
        match dropLit "years".data r1 with
        | some (c2 :: r2) =>
          if isDashOrSpace c2 then
            match dropLit "old".data r2 with
            | some _ => some (digitsVal ds)
            | none => none
          else none
        | _ => none
      else none

/-- Pattern `age[-\s](\d+)` anchored at the current position. -/
def matchAgeNAt (cs : List Char) : Option Nat :=
  match dropLit "age".data cs with
  | some (c :: r1) =>
    if isDashOrSpace c then
      match takeDigits r1 with
      | ([], _) => none
      | (ds, _) => some (digitsVal ds)
    else none
  | _ => none

/-- Pattern `aged[-\s](\d+)` anchored at the current position. -/
def matchAgedNAt (cs : List Char) : Option Nat :=
  match dropLit "aged".data cs with
  | some (c :: r1) =>
    if isDashOrSpace c then
      match takeDigits r1 with
      | ([], _) => none
      | (ds, _) => some (digitsVal ds)
    else none
  | _ => none

/-- Pattern `\b(\d+)\b` anchored at the current position; `prev` is the
character just before it (none at the start of the string). -/
def matchBareAt (prev : Option Char) (cs : List Char) : Option Nat :=
  match cs with
  | [] => none
  | c :: _ =>
    if c.isDigit && (match prev with | none => true | some p => !isWordChar p) then
      match takeDigits cs with
      | (ds, []) => some (digitsVal ds)
      | (ds, c2 :: _) => if isWordChar c2 then none else some (digitsVal ds)
    else none

/-- `re.search`: scan positions left to right, return the first anchored
match.  `prev` carries the preceding character for word boundaries. -/
def scanFrom (f : Option Char → List Char → Option Nat) :
    Option Char → List Char → Option Nat
  | prev, [] => f prev []
  | prev, c :: cs =>
    match f prev (c :: cs) with
    | some n => some n
    | none => scanFrom f (some c) cs

/-- Loop of `DietaryRequirementsTool._extract_age_from_query`: try each
pattern in priority order; a match whose value is outside `[1, 120]` is
discarded and the next pattern is tried. -/
def tryAgePatterns (q : List Char) :
    List (Option Char → List Char → Option Nat) → Option Nat
  | [] => none
  | p :: ps =>
    match scanFrom p none q with
    | some n => if 1 ≤ n ∧ n ≤ 120 then some n else tryAgePatterns q ps
    | none => tryAgePatterns q ps

/-- `DietaryRequirementsTool._extract_age_from_query`: priority patterns
`(\d+)[-\s]year[-\s]old`, `age[-\s](\d+)`, `aged[-\s](\d+)`,
`(\d+)[-\s]years[-\s]old`, then the bare-number fallback `\b(\d+)\b`,
over the lowercased query. -/
def extract_age_from_query (query : String) : Option Nat :=
  tryAgePatterns (pyLower query).data
    [fun _ => matchYearOldAt, fun _ => matchAgeNAt, fun _ => matchAgedNAt,
     fun _ => matchYearsOldAt, matchBareAt]

/-- `DietaryRequirementsTool._extract_gender_from_query`: case-insensitive
substring tests, the male group first. -/
def extract_gender_from_query (query : String) : Option String :=
  let q := pyLower query
  if strContains q "male" || strContains q "man" || strContains q "boy" then
    some "male"
  else if strContains q "female" || strContains q "woman" || strContains q "girl" then
    some "female"
  else none

/-- Upper bound of an age range: a finite bound or `float('inf')`. -/
inductive AgeUB where
  | fin (n : Int)
  | inf
deriving Repr

/-- `age <= max_age` where the bound may be infinite. -/
def ubSat (age : Int) : AgeUB → Bool
  | .fin n => age ≤ n
  | .inf => true

/-- The `age_ranges` table of `get_age_group` in
`src/data/process_dietary_data.py`. -/
def age_ranges : List (Int × AgeUB × String) :=
  [(1, .fin 1, "1"),
   (2, .fin 3, "2-3"),
   (4, .fin 6, "4-6"),
   (7, .fin 10, "7-10"),
   (11, .fin 14, "11-14"),
   (15, .fin 18, "15-18"),
   (19, .fin 64, "19-64"),
   (65, .fin 74, "65-74"),
   (75, .inf, "75+")]

/-- The linear scan of `get_age_group`: first range with
`min_age <= age <= max_age` wins. -/
def findGroup (age : Int) : List (Int × AgeUB × String) → Option String
  | [] => none
  | (mn, ub, g) :: rest =>
    if mn ≤ age ∧ ubSat age ub then some g else findGroup age rest

/-- `get_age_group` (`src/data/process_dietary_data.py`): scan the nine
ranges, fall back to `"75+"`. -/
def get_age_group (age : Int) : String :=
  match findGroup age age_ranges with
  | some g => g
  | none => "75+"

/-- The nine age-group labels. -/
def ageGroupLabels : List String :=
  ["1", "2-3", "4-6", "7-10", "11-14", "15-18", "19-64", "65-74", "75+"]

/-- Number of ranges of `age_ranges` whose inclusive interval contains
`age` (for the no-gaps / no-overlaps property). -/
def matchingRanges (age : Int) : Nat :=
  (age_ranges.filter (fun t => decide (t.1 ≤ age) && ubSat age t.2.1)).length

/-- A JSON nutrient value: Python `None`, a number, a range string such as
`"3.0-5.0"`, or a sub-mapping such as the pre/post-menopause iron entry.
Numbers and sub-mapping values are abstracted to their `str()` rendering,
which is all the formatting code reads from them. -/
inductive NutrientVal where
  | null
  | num (r : String)
  | strv (s : String)
  | dictv (entries : List (String × String))

/-- A nutrient mapping for one (age-group, gender) cell: a Python dict from
nutrient key to value, as an ordered association list. -/
abbrev NutrientDict : Type := List (String × NutrientVal)

/-- One of the three dietary source tables: age-group → gender → nutrients. -/
abbrev DietTable : Type := List (String × List (String × NutrientDict))

/-- The lazily-loaded `_data_cache` of `DietaryRequirementsVectorStore`:
the three source tables (a table is empty when its file was missing or
unreadable). -/
structure DietaryStore where
  minerals : DietTable
  vitamins : DietTable
  nutrition : DietTable

/-- Python `table.get(age_group, {}).get(gender, {})`. -/
def tableCell (t : DietTable) (age_group gender : String) : NutrientDict :=
  match pyDictGet t age_group with
  | some row =>
    match pyDictGet row gender with
    | some cell => cell
    | none => []
  | none => []

/-- The full record returned by
`DietaryRequirementsVectorStore.get_requirements_by_key`. -/
structure Requirements where
  age_group : String
  gender : String
  minerals : NutrientDict
  vitamins : NutrientDict
  nutrition : NutrientDict

/-- `DietaryRequirementsVectorStore.get_requirements_by_key`: read the three
cached tables at `(age_group, gender)`; `None` when all three cells are
empty, else the merged record. -/
def get_requirements_by_key (st : DietaryStore) (age_group gender : String) :
    Option Requirements :=
  let minerals := tableCell st.minerals age_group gender
  let vitamins := tableCell st.vitamins age_group gender
  let nutrition := tableCell st.nutrition age_group gender
  if minerals.isEmpty && vitamins.isEmpty && nutrition.isEmpty then
    none
  else
    some ⟨age_group, gender, minerals, vitamins, nutrition⟩

/-- `DietaryRequirementsTool._format_nutrient_value`. -/
def format_nutrient_value (value : NutrientVal) (key : String) : String :=
  match value with
  | .null => "not specified"
  | .dictv entries =>
    String.intercalate ", " (entries.map (fun p => p.1 ++ ": " ++ p.2))
  | .strv s => s
  | .num r =>
    if strContains key "_" then
      r ++ " " ++ lastUnderscorePart key
    else r

/-- One `"  - {nutrient_name}: {formatted_value}"` line of the exact-match
response. -/
def nutrientLine (p : String × NutrientVal) : String :=
  "  - " ++ pyTitle (underscoreToSpace p.1) ++ ": " ++ format_nutrient_value p.2 p.1

/-- The `response_parts` list built for an exact match in
`DietaryRequirementsTool.execute` (joined with newlines by the caller). -/
def formatExactParts (age : Int) (gender : String) (req : Requirements) :
    List String :=
  ["Dietary Requirements for " ++ pyCapitalize gender ++ ", Age " ++ toString age
     ++ " (Age Group: " ++ req.age_group ++ ")\n"]
  ++ (if req.minerals.isEmpty then [] else
        "\nMINERALS:" :: req.minerals.map nutrientLine)
  ++ (if req.vitamins.isEmpty then [] else
        "\nVITAMINS:" :: req.vitamins.map nutrientLine)
  ++ (if req.nutrition.isEmpty then [] else
        "\nNUTRITION (Macronutrients):" :: req.nutrition.map nutrientLine)

/-- Metadata of one document in the dietary collection, as read through
`metadata.get` by the tool. -/
structure DietMeta where
  age_group : Option String
  gender : Option String
  dataset_type : Option String

/-- One formatted similarity hit as returned by
`DietaryRequirementsVectorStore.search` (the tool only reads `metadata`;
`distance` is carried opaquely). -/
structure DietHit where
  id : String
  text : String
  metadata : DietMeta
  distance : Option String

/-- The per-hit `response_parts` entries of the semantic-search branch of
`DietaryRequirementsTool.execute`, with 1-based enumeration. -/
def formatDietHits (st : DietaryStore) : Nat → List DietHit → List String
  | _, [] => []
  | i, h :: rest =>
    let ag := h.metadata.age_group.getD "Unknown"
    let gr := h.metadata.gender.getD "Unknown"
    let lines :=
      match get_requirements_by_key st ag gr with
      | some fd =>
        ["\n" ++ toString i ++ ". " ++ pyCapitalize gr ++ ", Age Group: " ++ ag]
        ++ (if fd.minerals.isEmpty then [] else
              ["   Key Minerals: " ++ String.intercalate ", "
                 (((fd.minerals.map Prod.fst).take 3).map
                    (fun k => pyTitle (underscoreToSpace k)))])
        ++ (if fd.vitamins.isEmpty then [] else
              ["   Key Vitamins: " ++ String.intercalate ", "
                 (((fd.vitamins.map Prod.fst).take 3).map
                    (fun k => pyTitle (underscoreToSpace k)))])
      | none =>
        ["\n" ++ toString i ++ ". " ++ pyCapitalize gr ++ ", Age Group: " ++ ag]
    lines ++ formatDietHits st (i + 1) rest

/-- Oracle for `DietaryRequirementsVectorStore.search` (embedding model plus
ChromaDB query, both external).  A raised exception is an `Except.error`
carrying `str(e)`. -/
abbrev DietSearchFn : Type := String → Int → Except String (List DietHit)

/-- Body of `DietaryRequirementsTool.execute` (the code inside the `try`).
Mirrors the source order: clamp `max_results`, fill missing age/gender from
the query, compute the exact match, run the similarity search, then prefer
the exact match and otherwise fall back to the search results. -/
def dietary_execute_core (st : DietaryStore) (searchFn : DietSearchFn)
    (query : String) (age : Option Int) (gender : Option String)
    (max_results : Int) : Except String String :=
  let max_results := min (max 1 max_results) 10
  let age := match age with
    | some a => some a
    | none => (extract_age_from_query query).map Int.ofNat
  let gender := match gender with
    | some g => some g
    | none => extract_gender_from_query query
  let exact_match : Option (Int × String × Requirements) :=
    match age, gender with
    | some a, some g =>
      if a ≠ 0 ∧ g ≠ "" then
        (get_requirements_by_key st (get_age_group a) g).map (fun req => (a, g, req))
      else none
    | _, _ => none
  match searchFn query max_results with
  | .error e => .error e
  | .ok results =>
    match exact_match with
    | some (a, g, req) =>
      .ok (String.intercalate "\n" (formatExactParts a g req))
    | none =>
      if results.isEmpty then
        .ok ("No dietary requirements found for '" ++ query
               ++ "'. Try specifying age and gender (e.g., 'requirements for 30-year-old male').")
      else
        .ok (String.intercalate "\n"
               (("Found " ++ toString results.length ++ " result(s) for '" ++ query ++ "':\n")
                :: formatDietHits st 1 results))

/-- `DietaryRequirementsTool.execute`: the body wrapped in the
`try/except Exception` boundary that stringifies any exception. -/
def dietary_execute (st : DietaryStore) (searchFn : DietSearchFn)
    (query : String) (age : Option Int) (gender : Option String)
    (max_results : Int) : String :=
  match dietary_execute_core st searchFn query age gender max_results with
  | .ok s => s
  | .error e => "Error looking up dietary requirements: " ++ e

/-- A Python `fdcId` value, which the catalog stores as an integer and the
code round-trips through `str()`. -/
inductive FdcId where
  | int (n : Int)
  | str (s : String)

/-- Python `str(fdc_id)`. -/
def FdcId.pyStr : FdcId → String
  | .int n => toString n
  | .str s => s

/-- Python truthiness of an `fdcId` (`if fdc_id:`): `0` and `""` are falsy. -/
def FdcId.truthy : FdcId → Bool
  | .int n => n != 0
  | .str s => s != ""

/-- A Python number appearing as a nutrient `amount`, abstracted to its
f-string rendering plus its `!= 0` test — the only two observations the
code makes of it. -/
structure PyNum where
  repr : String
  isZero : Bool

/-- One entry of a food record's `foodNutrients` list, as accessed through
`nutrient.get('nutrient', {}).get('name', '')` etc.; missing keys are
`none`. -/
structure Nutrient where
  name : Option String
  amount : Option PyNum
  unitName : Option String

/-- One `FoundationFoods` record of the backing USDA JSON (only the fields
the code reads). -/
structure Food where
  fdcId : Option FdcId
  foodNutrients : Option (List Nutrient)

/-- The `NutritionVectorStore` state relevant to lookups: the backing JSON
(`none` when `json_path` is absent or unreadable, in which case the cache
is the empty dict) and the ChromaDB collection's per-id optional
`full_data` metadata used by the backwards-compatibility fallback. -/
structure NutritionVectorStore where
  jsonFoods : Option (List Food)
  collection : List (String × Option Food)

/-- The `_food_data_cache` dict `{str(food.get('fdcId')): food}` built by
`NutritionVectorStore._load_food_data_cache` (Python `str(None)` is
`"None"`). -/
def foodCache (vs : NutritionVectorStore) : List (String × Food) :=
  match vs.jsonFoods with
  | some foods =>
    foods.map (fun f => (match f.fdcId with
      | some x => x.pyStr
      | none => "None", f))
  | none => []

/-- `NutritionVectorStore.get_food_by_id`: consult the (truthy, i.e.
nonempty) cache under `str(fdc_id)`, else fall back to the collection
metadata's `full_data`. -/
def get_food_by_id (vs : NutritionVectorStore) (fdc_id : FdcId) : Option Food :=
  let cache := foodCache vs
  if !cache.isEmpty && (pyDictGet cache fdc_id.pyStr).isSome then
    pyDictGet cache fdc_id.pyStr
  else
    match vs.collection.find? (fun p => p.1 == fdc_id.pyStr) with
    | some p => p.2
    | none => none

/-- Metadata of one document in the food collection, as read through
`metadata.get` by the tool. -/
structure FoodMeta where
  fdc_id : Option FdcId
  description : Option String
  food_class : Option String
  category : Option String

/-- One formatted similarity hit of `NutritionVectorStore.search`. -/
structure FoodHit where
  id : String
  text : String
  metadata : FoodMeta
  distance : Option String

/-- Oracle for `NutritionVectorStore.search`. -/
abbrev FoodSearchFn : Type := String → Int → Except String (List FoodHit)

/-- The `important_nutrients` dict of `NutritionLookupTool.execute`, in
insertion order. -/
def important_nutrients : List (String × String) :=
  [("Energy", "Calories"),
   ("Protein", "Protein"),
   ("Total lipid (fat)", "Fat"),
   ("Carbohydrate, by difference", "Carbs"),
   ("Fiber, total dietary", "Fiber"),
   ("Calcium, Ca", "Calcium"),
   ("Iron, Fe", "Iron"),
   ("Vitamin C, total ascorbic acid", "Vitamin C"),
   ("Sodium, Na", "Sodium"),
   ("Sugars, total including NLEA", "Sugars")]

/-- Python dict insertion: overwrite in place when the key exists, else
append. -/
def dictInsert {α : Type} : List (String × α) → String → α → List (String × α)
  | [], k, v => [(k, v)]
  | (k0, v0) :: rest, k, v =>
    if k0 == k then (k0, v) :: rest else (k0, v0) :: dictInsert rest k v

/-- The `nutrient_map` built by `NutritionLookupTool.execute`: name →
(amount, unit) for entries with a non-`None`, nonzero amount and a
nonempty name. -/
def buildNutrientMap (nutrients : List Nutrient) : List (String × PyNum × String) :=
  nutrients.foldl
    (fun m n =>
      let name := n.name.getD ""
      let unit := n.unitName.getD ""
      match n.amount with
      | some a => if !a.isZero && name != "" then dictInsert m name (a, unit) else m
      | none => m)
    []

/-- The `key_nutrients` list: important nutrients first (in allow-list
order), then nutrients among the first five map entries that are not in
the allow list. -/
def keyNutrients (nutrient_map : List (String × PyNum × String)) : List String :=
  (important_nutrients.filterMap (fun p =>
     (nutrient_map.find? (fun q => q.1 == p.1)).map
       (fun q => p.2 ++ ": " ++ q.2.1.repr ++ " " ++ q.2.2)))
  ++ ((nutrient_map.take 5).filterMap (fun q =>
        if important_nutrients.any (fun p => p.1 == q.1) then none
        else some (q.1 ++ ": " ++ q.2.1.repr ++ " " ++ q.2.2)))

/-- The per-hit `response_parts` entries of `NutritionLookupTool.execute`,
with 1-based enumeration. -/
def formatFoodHits (vs : NutritionVectorStore) : Nat → List FoodHit → List String
  | _, [] => []
  | i, h :: rest =>
    let full_data : Option Food :=
      match h.metadata.fdc_id with
      | some f => if f.truthy then get_food_by_id vs f else none
      | none => none
    let nutrients : List Nutrient :=
      match full_data with
      | some fd => fd.foodNutrients.getD []
      | none => []
    let key_nutrients := keyNutrients (buildNutrientMap nutrients)
    ("\n" ++ toString i ++ ". " ++ (h.metadata.description.getD "Unknown")
       ++ "\n   Category: " ++ (h.metadata.category.getD "Unknown category")
       ++ "\n   Key Nutrients: " ++ String.intercalate ", " (key_nutrients.take 8)
       ++ "\n")
    :: formatFoodHits vs (i + 1) rest

/-- Body of `NutritionLookupTool.execute` (the code inside the `try`). -/
def nutrition_execute_core (vs : NutritionVectorStore) (searchFn : FoodSearchFn)
    (food_query : String) (max_results : Int) : Except String String :=
  let max_results := min (max 1 max_results) 20
  match searchFn food_query max_results with
  | .error e => .error e
  | .ok results =>
    if results.isEmpty then
      .ok ("No nutritional information found for '" ++ food_query
             ++ "'. Try a different search term.")
    else
      .ok (String.intercalate "\n"
             (("Found " ++ toString results.length ++ " result(s) for '" ++ food_query ++ "':\n")
              :: formatFoodHits vs 1 results))

/-- `NutritionLookupTool.execute`: the body wrapped in the
`try/except Exception` boundary that stringifies any exception. -/
def nutrition_execute (vs : NutritionVectorStore) (searchFn : FoodSearchFn)
    (food_query : String) (max_results : Int) : String :=
  match nutrition_execute_core vs searchFn food_query max_results with
  | .ok s => s
  | .error e => "Error looking up nutrition information: " ++ e

/-- A ChromaDB collection abstracted to its (id, document-text) entries;
embeddings and metadata do not affect ids or counts. -/
abbrev Collection : Type := List (String × String)

/-- `collection.add` of the external ChromaDB client as invoked by
`add_documents`: an id already present in the collection is left as is
(ChromaDB ignores inserts of existing embedding ids), a new id is
appended. -/
def collection_add (coll : Collection) (docs : List (String × String)) : Collection :=
  docs.foldl
    (fun c d => if c.any (fun p => p.1 == d.1) then c else c ++ [d])
    coll

/-- `get_collection_count`. -/
def collection_count (coll : Collection) : Nat :=
  coll.length

/-- The ingestion flow of `setup_usda_rag` / `setup_dietary_rag`
(`src/scripts/setup_rag.py`) on the re-index path: when the collection
already holds documents it is deleted and recreated empty, then
`add_documents` runs. -/
def setup_ingest (coll : Collection) (docs : List (String × String)) : Collection :=
  if collection_count coll > 0 then
    collection_add [] docs
  else
    collection_add coll docs

/-- The request body of `POST /api/tts` (`TTSRequest` in `src/web/api.py`). -/
structure TTSRequest where
  text : String
  voice_id : Option String
  model_id : Option String
  output_format : Option String

/-- Outcome of the `/api/tts` handler: an `HTTPException` or a streaming
response relaying the external TTS call (recorded by the arguments the
handler would pass to it). -/
inductive TTSResult where
  | httpError (status : Int) (detail : String)
  | stream (mediaType : String) (text voiceId modelId outputFormat : String)

/-- HTTP status of a `TTSResult`, when it is an error. -/
def TTSResult.status : TTSResult → Option Int
  | .httpError s _ => some s
  | .stream _ _ _ _ _ => none

/-- Python `x or default` for an optional string field (both `None` and
`""` fall back). -/
def pyOrDefault (x : Option String) (d : String) : String :=
  match x with
  | some s => if s == "" then d else s
  | none => d

/-- The `media_type_map` of the TTS endpoint. -/
def media_type_map : List (String × String) :=
  [("mp3_44100_128", "audio/mpeg"),
   ("mp3_22050_32", "audio/mpeg"),
   ("mp3_44100_192", "audio/mpeg"),
   ("pcm_16000", "audio/pcm"),
   ("pcm_22050", "audio/pcm"),
   ("pcm_24000", "audio/pcm"),
   ("pcm_44100", "audio/pcm")]

/-- The `POST /api/tts` handler `text_to_speech` (`src/web/api.py`):
503 when the ElevenLabs client was never initialised, 400 on empty or
oversized text, otherwise a streaming relay of the external TTS call. -/
def text_to_speech (clientInit : Bool) (req : TTSRequest) : TTSResult :=
  if !clientInit then
    .httpError 503 "ElevenLabs client not initialized"
  else if req.text == "" || pyStrip req.text == "" then
    .httpError 400 "Text cannot be empty"
  else if req.text.length > 5000 then
    .httpError 400 "Text too long (max 5000 characters)"
  else
    let actual_voice_id := pyOrDefault req.voice_id "JBFqnCBsd6RMkjVDRZzb"
    let actual_model_id := pyOrDefault req.model_id "eleven_turbo_v2"
    let actual_output_format := pyOrDefault req.output_format "mp3_44100_128"
    let media_type := (pyDictGet media_type_map actual_output_format).getD "audio/mpeg"
    .stream media_type (pyStrip req.text) actual_voice_id actual_model_id actual_output_format


/-- C2 counterexample: on `"a 30 year old woman"` the gender extractor
returns `"male"`, not `"female"`, because `"man"` occurs inside `"woman"`
and the male group is tested first. -/
theorem extract_gender_woman_counterexample :
    ¬ (extract_gender_from_query "a 30 year old woman" = some "female") := by
  decide

/-- C2 (amended): the gender extractor maps `"a 30 year old woman"` to
`"male"` (the male substring group `{"male","man","boy"}` is tested first
and `"man"` is a substring of `"woman"`), and the age extractor returns
`30` on `"requirements for 30-year-old male"`. -/
theorem extract_gender_and_age_examples :
    extract_gender_from_query "a 30 year old woman" = some "male"
    ∧ extract_age_from_query "requirements for 30-year-old male" = some 30 := by
  decide

/-- C3: for every age in `[1, 120]`, `get_age_group` returns one of the nine
fixed labels and exactly one of the nine inclusive ranges contains the age
(no gaps, no overlaps); moreover `get_age_group 23 = "19-64"`,
`get_age_group 5 = "4-6"` and `get_age_group 80 = "75+"`. -/
theorem get_age_group_partition_and_values :
    (∀ n : Nat, n < 121 → 1 ≤ n →
        get_age_group (n : Int) ∈ ageGroupLabels ∧ matchingRanges (n : Int) = 1)
    ∧ get_age_group 23 = "19-64" ∧ get_age_group 5 = "4-6" ∧ get_age_group 80 = "75+" := by
  decide

/-- Witness for C3 at age 23. -/
theorem get_age_group_partition_and_values_witness :
    get_age_group (23 : Int) ∈ ageGroupLabels ∧ matchingRanges (23 : Int) = 1 :=
  get_age_group_partition_and_values.1 23 (by decide) (by decide)

/-- C4: every integer age below 1 matches none of the nine explicit ranges,
so `get_age_group` falls through to its `"75+"` fallback. -/
theorem get_age_group_below_one (age : Int) (h : age < 1) :
    findGroup age age_ranges = none ∧ get_age_group age = "75+" := by
  have h1 : ¬ (1 ≤ age) := by omega
  have h2 : ¬ (2 ≤ age) := by omega
  have h4 : ¬ (4 ≤ age) := by omega
  have h7 : ¬ (7 ≤ age) := by omega
  have h11 : ¬ (11 ≤ age) := by omega
  have h15 : ¬ (15 ≤ age) := by omega
  have h19 : ¬ (19 ≤ age) := by omega
  have h65 : ¬ (65 ≤ age) := by omega
  have h75 : ¬ (75 ≤ age) := by omega
  have hfind : findGroup age age_ranges = none := by
    simp [findGroup, age_ranges, h1, h2, h4, h7, h11, h15, h19, h65, h75]
  exact ⟨hfind, by simp [get_age_group, hfind]⟩

/-- Witness for C4 at age 0. -/
theorem get_age_group_below_one_witness :
    findGroup 0 age_ranges = none ∧ get_age_group 0 = "75+" :=
  get_age_group_below_one 0 (by decide)

/-- C10: `get_food_by_id` observes its identifier only through `str(...)`,
so an integer id and its decimal string form give the same result. -/
theorem get_food_by_id_string_insensitive :
    (∀ (vs : NutritionVectorStore) (a : FdcId),
        get_food_by_id vs a = get_food_by_id vs (.str a.pyStr))
    ∧ (∀ (vs : NutritionVectorStore) (n : Int),
        get_food_by_id vs (.int n) = get_food_by_id vs (.str (toString n))) := by
  constructor
  · intro vs a
    cases a <;> rfl
  · intro vs n
    rfl

/-- C6: whenever the similarity search yields an empty result list, the food
lookup returns the templated no-results message. -/
theorem nutrition_no_results_message (vs : NutritionVectorStore)
    (searchFn : FoodSearchFn) (q : String) (m : Int)
    (h : searchFn q (min (max 1 m) 20) = Except.ok []) :
    nutrition_execute vs searchFn q m
      = "No nutritional information found for '" ++ q ++ "'. Try a different search term." := by
  simp [nutrition_execute, nutrition_execute_core, h]

/-- Witness for C6 with an empty index. -/
theorem nutrition_no_results_message_witness :
    nutrition_execute ⟨none, []⟩ (fun _ _ => Except.ok []) "dragonfruit" 5
      = "No nutritional information found for 'dragonfruit'. Try a different search term." :=
  nutrition_no_results_message ⟨none, []⟩ (fun _ _ => Except.ok []) "dragonfruit" 5 rfl

/-- C7: the food lookup clamps `max_results` to `[1, 20]` (50 behaves as 20,
0 behaves as 1) and the dietary lookup clamps to `[1, 10]` (50 behaves as
10, 0 behaves as 1), for every store, search oracle and query. -/
theorem max_results_clamping :
    (∀ (vs : NutritionVectorStore) (searchFn : FoodSearchFn) (q : String),
        nutrition_execute vs searchFn q 50 = nutrition_execute vs searchFn q 20
        ∧ nutrition_execute vs searchFn q 0 = nutrition_execute vs searchFn q 1)
    ∧ (∀ (st : DietaryStore) (dsearchFn : DietSearchFn) (q : String)
         (a : Option Int) (g : Option String),
        dietary_execute st dsearchFn q a g 50 = dietary_execute st dsearchFn q a g 10
        ∧ dietary_execute st dsearchFn q a g 0 = dietary_execute st dsearchFn q a g 1) := by
  refine ⟨fun vs f q => ⟨?_, ?_⟩, fun st f q a g => ⟨?_, ?_⟩⟩ <;> rfl

/-- The nutrition-tool error wrapper always yields a string starting with
"Error". -/
lemma errPrefixNutrition (e : String) :
    strStartsWith ("Error looking up nutrition information: " ++ e) "Error" = true := by
  rfl

/-- The dietary-tool error wrapper always yields a string starting with
"Error". -/
lemma errPrefixDietary (e : String) :
    strStartsWith ("Error looking up dietary requirements: " ++ e) "Error" = true := by
  rfl

/-- C5: neither tool propagates an exception: on success the body's string is
returned unchanged, and any exception raised inside the body is converted
at the boundary into a message that begins with "Error". -/
theorem tool_boundary_never_raises :
    ∀ (vs : NutritionVectorStore) (searchFn : FoodSearchFn) (q : String) (m : Int)
      (st : DietaryStore) (dsearchFn : DietSearchFn) (q2 : String)
      (a : Option Int) (g : Option String) (m2 : Int),
      ((∃ s, nutrition_execute_core vs searchFn q m = .ok s
          ∧ nutrition_execute vs searchFn q m = s)
        ∨ (∃ e, nutrition_execute_core vs searchFn q m = .error e
            ∧ nutrition_execute vs searchFn q m = "Error looking up nutrition information: " ++ e
            ∧ strStartsWith (nutrition_execute vs searchFn q m) "Error" = true))
      ∧ ((∃ s, dietary_execute_core st dsearchFn q2 a g m2 = .ok s
          ∧ dietary_execute st dsearchFn q2 a g m2 = s)
        ∨ (∃ e, dietary_execute_core st dsearchFn q2 a g m2 = .error e
            ∧ dietary_execute st dsearchFn q2 a g m2 = "Error looking up dietary requirements: " ++ e
            ∧ strStartsWith (dietary_execute st dsearchFn q2 a g m2) "Error" = true)) := by
  intro vs searchFn q m st dsearchFn q2 a g m2
  constructor
  · cases h : nutrition_execute_core vs searchFn q m with
    | ok s =>
      exact Or.inl ⟨s, rfl, by simp [nutrition_execute, h]⟩
    | error e =>
      refine Or.inr ⟨e, rfl, by simp [nutrition_execute, h], ?_⟩
      have hx : nutrition_execute vs searchFn q m
          = "Error looking up nutrition information: " ++ e := by
        simp [nutrition_execute, h]
      rw [hx]
      exact errPrefixNutrition e
  · cases h : dietary_execute_core st dsearchFn q2 a g m2 with
    | ok s =>
      exact Or.inl ⟨s, rfl, by simp [dietary_execute, h]⟩
    | error e =>
      refine Or.inr ⟨e, rfl, by simp [dietary_execute, h], ?_⟩
      have hx : dietary_execute st dsearchFn q2 a g m2
          = "Error looking up dietary requirements: " ++ e := by
        simp [dietary_execute, h]
      rw [hx]
      exact errPrefixDietary e

/-- C9: with the client initialised, whitespace-only (or empty) text gives
HTTP 400 and text longer than 5000 characters gives HTTP 400; with no
client configured the endpoint answers HTTP 503 for every request. -/
theorem tts_validation (req : TTSRequest) :
    (pyStrip req.text = "" →
        text_to_speech true req = .httpError 400 "Text cannot be empty")
    ∧ (req.text.length > 5000 →
        (text_to_speech true req).status = some 400)
    ∧ text_to_speech false req = .httpError 503 "ElevenLabs client not initialized" := by
  refine ⟨fun h => ?_, fun h => ?_, rfl⟩
  · simp [text_to_speech, h]
  · by_cases he : (req.text == "" || pyStrip req.text == "") = true
    · simp [text_to_speech, he, TTSResult.status]
    · simp [text_to_speech, he, h, TTSResult.status]

/-- Witness for C9: whitespace-only text, a 5001-character text, and a valid
request against an unconfigured client. -/
theorem tts_validation_witness :
    text_to_speech true ⟨"   ", none, none, none⟩ = .httpError 400 "Text cannot be empty"
    ∧ (text_to_speech true ⟨String.mk (List.replicate 5001 'a'), none, none, none⟩).status = some 400
    ∧ text_to_speech false ⟨"hello", none, none, none⟩
        = .httpError 503 "ElevenLabs client not initialized" :=
  ⟨(tts_validation ⟨"   ", none, none, none⟩).1 (by decide),
   (tts_validation ⟨String.mk (List.replicate 5001 'a'), none, none, none⟩).2.1
     (by simp only [String.length, List.length_replicate]; omega),
   (tts_validation ⟨"hello", none, none, none⟩).2.2⟩

/-- Ids already present in a collection stay present through
`collection_add`. -/
lemma collection_add_keeps_key (docs : List (String × String)) :
    ∀ (coll : Collection) (id : String),
      coll.any (fun p => p.1 == id) = true →
      (collection_add coll docs).any (fun p => p.1 == id) = true := by
  induction docs with
  | nil => intro coll id h; exact h
  | cons d ds ih =>
    intro coll id h
    show (collection_add (if coll.any (fun p => p.1 == d.1) then coll else coll ++ [d]) ds).any
        (fun p => p.1 == id) = true
    by_cases hd : coll.any (fun p => p.1 == d.1) = true
    · rw [if_pos hd]; exact ih coll id h
    · rw [if_neg hd]
      refine ih (coll ++ [d]) id ?_
      rw [List.any_append, h, Bool.true_or]

/-- After `collection_add`, every submitted document id is present. -/
lemma collection_add_mem_self (docs : List (String × String)) :
    ∀ (coll : Collection) (d : String × String), d ∈ docs →
      (collection_add coll docs).any (fun p => p.1 == d.1) = true := by
  induction docs with
  | nil => intro coll d h; cases h
  | cons d0 ds ih =>
    intro coll d h
    show (collection_add (if coll.any (fun p => p.1 == d0.1) then coll else coll ++ [d0]) ds).any
        (fun p => p.1 == d.1) = true
    rcases List.mem_cons.mp h with rfl | hds
    · by_cases hd : coll.any (fun p => p.1 == d.1) = true
      · rw [if_pos hd]; exact collection_add_keeps_key ds coll d.1 hd
      · rw [if_neg hd]
        refine collection_add_keeps_key ds (coll ++ [d]) d.1 ?_
        rw [List.any_append]
        simp
    · by_cases hd : coll.any (fun p => p.1 == d0.1) = true
      · rw [if_pos hd]; exact ih coll d hds
      · rw [if_neg hd]; exact ih (coll ++ [d0]) d hds

/-- Adding documents whose ids are all already present is a no-op. -/
lemma collection_add_noop (docs : List (String × String)) :
    ∀ (coll : Collection),
      (∀ d ∈ docs, coll.any (fun p => p.1 == d.1) = true) →
      collection_add coll docs = coll := by
  induction docs with
  | nil => intro coll _; rfl
  | cons d ds ih =>
    intro coll h
    show collection_add (if coll.any (fun p => p.1 == d.1) then coll else coll ++ [d]) ds = coll
    rw [if_pos (h d (List.mem_cons_self d ds))]
    exact ih coll (fun x hx => h x (List.mem_cons_of_mem d hx))

/-- C8: ingestion is idempotent under identical document ids: running the
setup ingestion twice yields the same collection (hence the same
`get_collection_count`) as running it once, and even a raw second
`add_documents` of the same set leaves the collection unchanged. -/
theorem ingest_idempotent :
    (∀ docs : List (String × String),
        setup_ingest (setup_ingest [] docs) docs = setup_ingest [] docs
        ∧ collection_count (setup_ingest (setup_ingest [] docs) docs)
            = collection_count (setup_ingest [] docs))
    ∧ (∀ (coll : Collection) (docs : List (String × String)),
        collection_add (collection_add coll docs) docs = collection_add coll docs) := by
  have hnoop : ∀ (coll : Collection) (docs : List (String × String)),
      collection_add (collection_add coll docs) docs = collection_add coll docs :=
    fun coll docs =>
      collection_add_noop docs (collection_add coll docs)
        (fun d hd => collection_add_mem_self docs coll d hd)
  refine ⟨fun docs => ?_, hnoop⟩
  have h1 : setup_ingest [] docs = collection_add [] docs := by
    simp [setup_ingest, collection_count]
  have h2 : setup_ingest (setup_ingest [] docs) docs = setup_ingest [] docs := by
    rw [h1]
    by_cases hc : collection_count (collection_add [] docs) > 0
    · rw [setup_ingest, if_pos hc]
    · rw [setup_ingest, if_neg hc]
      exact hnoop [] docs
  exact ⟨h2, by rw [h2]⟩

/-- A small populated dietary store with a record for the ("19-64", "male")
bucket, used to instantiate the exact-match claims. -/
def sampleDietaryStore : DietaryStore :=
  ⟨[("19-64", [("male", [("calcium_mg", NutrientVal.num "700"),
                         ("iron_mg", NutrientVal.num "8.7")])])],
   [("19-64", [("male", [("vitamin_c_mg", NutrientVal.num "40")])])],
   [("19-64", [("male", [("protein_g", NutrientVal.num "55.5")])])]⟩

/-- The record `sampleDietaryStore` holds for ("19-64", "male"). -/
def sampleRequirements : Requirements :=
  ⟨"19-64", "male",
   [("calcium_mg", NutrientVal.num "700"), ("iron_mg", NutrientVal.num "8.7")],
   [("vitamin_c_mg", NutrientVal.num "40")],
   [("protein_g", NutrientVal.num "55.5")]⟩

/-- When age and gender are truthy and the store has the bucket record, and
the similarity search returns without raising, the dietary tool's response
is the exact-match breakdown, whatever the search results were. -/
lemma dietary_exact_ok (st : DietaryStore) (res : List DietHit) (query : String)
    (a : Int) (g : String) (m : Int) (req : Requirements)
    (h1 : a ≠ 0) (h2 : g ≠ "")
    (h3 : get_requirements_by_key st (get_age_group a) g = some req) :
    dietary_execute st (fun _ _ => Except.ok res) query (some a) (some g) m
      = String.intercalate "\n" (formatExactParts a g req) := by
  simp [dietary_execute, dietary_execute_core, h1, h2, h3]

/-- C1 counterexample: with both age and gender known (age 23, gender
"male") and the ("19-64", "male") record present in the store, the
similarity-search path is NOT skipped: the tool still invokes the vector
search before returning, so a search failure replaces the exact-match
response with an error message that does not even mention "19-64". -/
theorem dietary_exact_match_search_not_skipped :
    dietary_execute sampleDietaryStore (fun _ _ => Except.error "embedding model unavailable")
        "dietary requirements" (some 23) (some "male") 5
      = "Error looking up dietary requirements: embedding model unavailable"
    ∧ strContains
        (dietary_execute sampleDietaryStore (fun _ _ => Except.error "embedding model unavailable")
          "dietary requirements" (some 23) (some "male") 5) "19-64" = false := by
  constructor
  · rfl
  · decide

/-- C1 (amended): when both age and gender are known (truthy) and the store
has the bucket record, and the similarity search returns without raising,
the tool answers with the exact-match record formatted as the labeled
mineral/vitamin/macronutrient breakdown, ignoring the similarity results
entirely (the response is the same for every result list); for age 23 and
gender "male" the response contains the literal "19-64" and omits the
"Found N result(s)" framing.  The similarity search itself is still
executed, not skipped. -/
theorem dietary_exact_match_response :
    (∀ (st : DietaryStore) (res : List DietHit) (query : String) (a : Int)
       (g : String) (m : Int) (req : Requirements),
        a ≠ 0 → g ≠ "" →
        get_requirements_by_key st (get_age_group a) g = some req →
        dietary_execute st (fun _ _ => Except.ok res) query (some a) (some g) m
          = String.intercalate "\n" (formatExactParts a g req))
    ∧ (∀ res : List DietHit,
        strContains
          (dietary_execute sampleDietaryStore (fun _ _ => Except.ok res)
            "dietary requirements" (some 23) (some "male") 5) "19-64" = true
        ∧ strContains
          (dietary_execute sampleDietaryStore (fun _ _ => Except.ok res)
            "dietary requirements" (some 23) (some "male") 5) "Found " = false) := by
  refine ⟨fun st res query a g m req h1 h2 h3 => dietary_exact_ok st res query a g m req h1 h2 h3,
    fun res => ?_⟩
  rw [dietary_exact_ok sampleDietaryStore res "dietary requirements" 23 "male" 5
    sampleRequirements (by decide) (by decide) (by rfl)]
  exact ⟨by decide, by decide⟩

/-- Witness for C1 (amended) at the sample store with an empty search-result
list. -/
theorem dietary_exact_match_response_witness :
    dietary_execute sampleDietaryStore (fun _ _ => Except.ok [])
        "dietary requirements" (some 23) (some "male") 5
      = String.intercalate "\n" (formatExactParts 23 "male" sampleRequirements) :=
  dietary_exact_match_response.1 sampleDietaryStore [] "dietary requirements" 23 "male" 5
    sampleRequirements (by decide) (by decide) (by rfl)

end FoodNutrition
